import Mathlib

/-!
Shallow embedding of `src/context/StreamContext.tsx` (stream session state
machine): the session snapshot (`StreamData`), the platform connector, the
playlist playback sequencer, and the remote-facing operations
(`startPlaylistStream`, `stopStream`, `refreshStreamStatus`).

Remote round trips are modelled by passing the outcome of each fetch as an
explicit argument (`FetchResult`): `netErr` stands for any exception thrown
while performing the request (network failure, token failure, JSON parse
failure), `resp ok body` for a response whose `response.ok` flag is `ok` and
whose parsed JSON body is `body`.  Video references are opaque JSON objects in
the source; they are modelled as `Nat` tokens.
-/

namespace StreamContext

/-- Opaque video reference (the source stores arbitrary JSON objects). -/
abbrev Video := Nat

/-- `status` field of a platform: 'connected' | 'disconnected' | 'error' | 'connecting'. -/
inductive PlatformStatus where
  | connected
  | disconnected
  | error
  | connecting
deriving DecidableEq, Repr

/-- `StreamPlatform` interface from the source. -/
structure StreamPlatform where
  id : String
  name : String
  enabled : Bool
  rtmpUrl : Option String := Option.none
  streamKey : Option String := Option.none
  status : PlatformStatus
deriving DecidableEq, Repr

/-- `wowzaStatus` field: 'online' | 'offline' | 'error'. -/
inductive WowzaStatus where
  | online
  | offline
  | error
deriving DecidableEq, Repr

/-- `streamType` field: 'obs' | 'playlist' | 'none'. -/
inductive StreamType where
  | obs
  | playlist
  | none
deriving DecidableEq, Repr

/-- The `currentPlaylist` sub-record of `StreamData`. -/
structure CurrentPlaylist where
  id : Int
  name : String
  videos : List Video
  currentVideoIndex : Int
  isPlaying : Bool
  loop : Bool
  shuffle : Bool
deriving DecidableEq, Repr

/-- `StreamData` interface: the session snapshot.  `startTime` (a JS `Date`)
is modelled as an optional integer timestamp. -/
structure StreamData where
  isLive : Bool
  streamUrl : String
  title : String
  viewers : Int
  uptime : String
  bitrate : Int
  startTime : Option Int
  duration : Int
  platforms : List StreamPlatform
  wowzaStatus : WowzaStatus
  applicationName : String
  streamName : String
  currentPlaylist : Option CurrentPlaylist
  streamType : StreamType
deriving DecidableEq, Repr

/-- `defaultPlatforms`: the fixed catalog of ten targets. -/
def defaultPlatforms : List StreamPlatform :=
  [ { id := "youtube", name := "YouTube", enabled := false, status := PlatformStatus.disconnected },
    { id := "instagram", name := "Instagram", enabled := false, status := PlatformStatus.disconnected },
    { id := "facebook", name := "Facebook", enabled := false, status := PlatformStatus.disconnected },
    { id := "twitch", name := "Twitch", enabled := false, status := PlatformStatus.disconnected },
    { id := "vimeo", name := "Vimeo", enabled := false, status := PlatformStatus.disconnected },
    { id := "tiktok", name := "TikTok", enabled := false, status := PlatformStatus.disconnected },
    { id := "periscope", name := "Periscope", enabled := false, status := PlatformStatus.disconnected },
    { id := "kwai", name := "Kwai", enabled := false, status := PlatformStatus.disconnected },
    { id := "steam", name := "Steam Valve", enabled := false, status := PlatformStatus.disconnected },
    { id := "rtmp", name := "RTMP Proprio", enabled := false, status := PlatformStatus.disconnected } ]

/-- The initial `useState` value of `streamData`. -/
def initialStreamData : StreamData :=
  { isLive := false
    streamUrl := ""
    title := ""
    viewers := 0
    uptime := "00:00:00"
    bitrate := 0
    startTime := Option.none
    duration := 0
    platforms := defaultPlatforms
    wowzaStatus := WowzaStatus.offline
    applicationName := "live"
    streamName := ""
    currentPlaylist := Option.none
    streamType := StreamType.none }

/-- Outcome of one remote round trip: `netErr` models a thrown exception
(network/token/parse failure), `resp ok body` a response that parsed to
`body` with `response.ok = ok`. -/
inductive FetchResult (α : Type) where
  | netErr (msg : String)
  | resp (ok : Bool) (body : α)

/-- Playlist metadata returned by `GET /api/playlists/id`. -/
structure Playlist where
  nome : String
deriving DecidableEq, Repr

/-- Body of the `POST /api/streaming/start-internal` response. -/
structure StartResult where
  success : Bool
  stream_url : Option String
  stream_name : Option String
  error : Option String
deriving DecidableEq, Repr

/-- Body of the `POST /api/streaming/stop-internal` response. -/
structure StopResult where
  success : Bool
  error : Option String
deriving DecidableEq, Repr

/-- `stats` object inside a status transmission. -/
structure TransmissionStats where
  viewers : Int
  bitrate : Int
  uptime : String
deriving DecidableEq, Repr

/-- `transmission` object of the `GET /api/streaming/status` response. -/
structure Transmission where
  titulo : String
  stats : TransmissionStats
deriving DecidableEq, Repr

/-- Body of the `GET /api/streaming/status` response. -/
structure StatusResult where
  success : Bool
  is_live : Bool
  transmission : Option Transmission
deriving DecidableEq, Repr

/-- The distinct throw sites of the source, one constructor per `throw`:
`netErr` re-throws a transport/parse error, the others are the
`new Error(...)` messages thrown by `startPlaylistStream` / `stopStream`
('Playlist nao encontrada', 'Erro ao carregar videos da playlist',
'Playlist nao possui videos', `result.error` fallback messages). -/
inductive StreamError where
  | netErr (msg : String)
  | playlistNotFound
  | videosLoadError
  | emptyPlaylist
  | startFailed (reason : Option String)
  | stopFailed (reason : Option String)
deriving DecidableEq, Repr

/-- Options argument of `startPlaylistStream`; `Option.none` models an absent
field (the source applies `?? true` / `?? false` defaults). -/
structure StartOptions where
  loop : Option Bool := Option.none
  shuffle : Option Bool := Option.none

/-- Environment of one `startPlaylistStream` call: the outcome of the three
remote round trips, the permutation produced by the `Math.random` shuffle,
and the current wall clock (`new Date()`). -/
structure StartEnv where
  playlistFetch : FetchResult Playlist
  videosFetch : FetchResult (List Video)
  shuffleFn : List Video → List Video
  startFetch : FetchResult StartResult
  now : Int

/-- `updatePlatformConfig` specialised to the `status` field, the only form of
config the connect/disconnect operations apply. -/
def updatePlatformStatus (s : StreamData) (platformId : String) (st : PlatformStatus) :
    StreamData :=
  { s with platforms := s.platforms.map fun platform =>
      if platform.id == platformId then { platform with status := st } else platform }

/-- `connectToPlatform`: sets the status to `connecting`, awaits the platform
round trip (`attempt`), then sets `connected` on success or `error` on
failure (re-throwing).  Returned as the list of successive snapshots so the
status sequence is observable. -/
def connectToPlatform (s : StreamData) (platformId : String)
    (attempt : Except String Unit) : List StreamData :=
  let s1 := updatePlatformStatus s platformId PlatformStatus.connecting
  match attempt with
  | Except.ok _ => [s1, updatePlatformStatus s1 platformId PlatformStatus.connected]
  | Except.error _ => [s1, updatePlatformStatus s1 platformId PlatformStatus.error]

/-- `disconnectFromPlatform`: awaits the round trip, then sets `disconnected`
on success or `error` on failure (re-throwing). -/
def disconnectFromPlatform (s : StreamData) (platformId : String)
    (attempt : Except String Unit) : StreamData :=
  match attempt with
  | Except.ok _ => updatePlatformStatus s platformId PlatformStatus.disconnected
  | Except.error _ => updatePlatformStatus s platformId PlatformStatus.error

/-- `startPlaylistStream`.  Returns the thrown error (if any) together with
the snapshot after the call; every throw site of the source leaves the
snapshot untouched because `updateStreamData` is only reached in the success
branch. -/
def startPlaylistStream (s : StreamData) (playlistId : Int) (options : StartOptions)
    (env : StartEnv) : Option StreamError × StreamData :=
  match env.playlistFetch with
  | FetchResult.netErr m => (some (StreamError.netErr m), s)
  | FetchResult.resp false _ => (some StreamError.playlistNotFound, s)
  | FetchResult.resp true playlist =>
    match env.videosFetch with
    | FetchResult.netErr m => (some (StreamError.netErr m), s)
    | FetchResult.resp false _ => (some StreamError.videosLoadError, s)
    | FetchResult.resp true videos =>
      if videos.length = 0 then (some StreamError.emptyPlaylist, s)
      else
        let finalVideos :=
          if options.shuffle.getD false then env.shuffleFn videos else videos
        match env.startFetch with
        | FetchResult.netErr m => (some (StreamError.netErr m), s)
        | FetchResult.resp _ result =>
          if result.success then
            (Option.none,
             { s with
                isLive := true
                streamUrl := result.stream_url.getD ""
                streamName := result.stream_name.getD ""
                title := playlist.nome
                startTime := some env.now
                viewers := 0
                bitrate := 2500
                wowzaStatus := WowzaStatus.online
                streamType := StreamType.playlist
                currentPlaylist := some
                  { id := playlistId
                    name := playlist.nome
                    videos := finalVideos
                    currentVideoIndex := 0
                    isPlaying := true
                    loop := options.loop.getD true
                    shuffle := options.shuffle.getD false } })
          else (some (StreamError.startFailed result.error), s)

/-- `stopStream`.  The response's `ok` flag is not inspected by the source
(the body is parsed unconditionally), matching `FetchResult.resp _ result`. -/
def stopStream (s : StreamData) (stopFetch : FetchResult StopResult) :
    Option StreamError × StreamData :=
  match stopFetch with
  | FetchResult.netErr m => (some (StreamError.netErr m), s)
  | FetchResult.resp _ result =>
    if result.success then
      (Option.none,
       { s with
          isLive := false
          streamUrl := ""
          viewers := 0
          uptime := "00:00:00"
          bitrate := 0
          duration := 0
          startTime := Option.none
          wowzaStatus := WowzaStatus.offline
          streamName := ""
          streamType := StreamType.none
          currentPlaylist := Option.none })
    else (some (StreamError.stopFailed result.error), s)

/-- `refreshStreamStatus`.  The catch block swallows the error and only sets
`wowzaStatus = 'error'`; accordingly the embedding is total (no error
component in the result). -/
def refreshStreamStatus (s : StreamData) (statusFetch : FetchResult StatusResult) :
    StreamData :=
  match statusFetch with
  | FetchResult.netErr _ => { s with wowzaStatus := WowzaStatus.error }
  | FetchResult.resp _ result =>
    match result.success, result.is_live, result.transmission with
    | true, true, some transmission =>
      { s with
          isLive := true
          viewers := transmission.stats.viewers
          bitrate := transmission.stats.bitrate
          uptime := transmission.stats.uptime
          title := transmission.titulo
          wowzaStatus := WowzaStatus.online }
    | _, _, _ =>
      { s with
          isLive := false
          viewers := 0
          bitrate := 0
          uptime := "00:00:00"
          wowzaStatus := WowzaStatus.offline }

/-- `nextVideo`.  At the end of a non-looping playlist it triggers
`stopStream()` and returns; `stopFetch` is the outcome of that (fire and
forget) stop round trip, unused on the other paths. -/
def nextVideo (s : StreamData) (stopFetch : FetchResult StopResult) : StreamData :=
  match s.currentPlaylist with
  | Option.none => s
  | some cp =>
    let nextIndex := cp.currentVideoIndex + 1
    if nextIndex ≥ (cp.videos.length : Int) then
      if cp.loop then
        { s with currentPlaylist := some { cp with currentVideoIndex := 0 } }
      else
        (stopStream s stopFetch).2
    else
      { s with currentPlaylist := some { cp with currentVideoIndex := nextIndex } }

/-- `previousVideo`: decrement with wrap-around to `length - 1`. -/
def previousVideo (s : StreamData) : StreamData :=
  match s.currentPlaylist with
  | Option.none => s
  | some cp =>
    let prevIndex := cp.currentVideoIndex - 1
    let wrapped := if prevIndex < 0 then (cp.videos.length : Int) - 1 else prevIndex
    { s with currentPlaylist := some { cp with currentVideoIndex := wrapped } }

/-- `playVideo`: seek, a no-op when the index is out of range. -/
def playVideo (s : StreamData) (index : Int) : StreamData :=
  match s.currentPlaylist with
  | Option.none => s
  | some cp =>
    if 0 ≤ index ∧ index < (cp.videos.length : Int) then
      { s with currentPlaylist := some { cp with currentVideoIndex := index } }
    else s

/-- `togglePlayPause`: flips `isPlaying`. -/
def togglePlayPause (s : StreamData) : StreamData :=
  match s.currentPlaylist with
  | Option.none => s
  | some cp => { s with currentPlaylist := some { cp with isPlaying := !cp.isPlaying } }

/-- Observer: status of the (first) platform with the given id. -/
def statusOf (s : StreamData) (platformId : String) : Option PlatformStatus :=
  (s.platforms.find? fun platform => platform.id == platformId).map StreamPlatform.status

/-- Spec invariant, playlist part: `playback` present iff `sessionKind = playlist`. -/
def playbackInv (s : StreamData) : Prop :=
  s.currentPlaylist.isSome ↔ s.streamType = StreamType.playlist

/-- Spec invariant, start-time part: `startTime` present iff `isLive`. -/
def startTimeInv (s : StreamData) : Prop :=
  s.startTime.isSome ↔ s.isLive = true

/-- Playback-index validity: whenever the playback state exists, its index is
a valid index into the video sequence. -/
def validPlayback (s : StreamData) : Prop :=
  ∀ cp, s.currentPlaylist = some cp →
    0 ≤ cp.currentVideoIndex ∧ cp.currentVideoIndex < (cp.videos.length : Int)

/-- Snapshots reachable from the initial state by the public operations
(each remote round trip with an arbitrary outcome). -/
inductive Reachable : StreamData → Prop where
  | init : Reachable initialStreamData
  | start (s : StreamData) (pid : Int) (opts : StartOptions) (env : StartEnv) :
      Reachable s → Reachable (startPlaylistStream s pid opts env).2
  | stop (s : StreamData) (f : FetchResult StopResult) :
      Reachable s → Reachable (stopStream s f).2
  | refresh (s : StreamData) (f : FetchResult StatusResult) :
      Reachable s → Reachable (refreshStreamStatus s f)
  | next (s : StreamData) (f : FetchResult StopResult) :
      Reachable s → Reachable (nextVideo s f)
  | prev (s : StreamData) : Reachable s → Reachable (previousVideo s)
  | play (s : StreamData) (i : Int) : Reachable s → Reachable (playVideo s i)
  | toggle (s : StreamData) : Reachable s → Reachable (togglePlayPause s)

/-- Snapshots reachable without `refreshStreamStatus` (the operation that
breaks the start-time half of the invariant). -/
inductive ReachableNR : StreamData → Prop where
  | init : ReachableNR initialStreamData
  | start (s : StreamData) (pid : Int) (opts : StartOptions) (env : StartEnv) :
      ReachableNR s → ReachableNR (startPlaylistStream s pid opts env).2
  | stop (s : StreamData) (f : FetchResult StopResult) :
      ReachableNR s → ReachableNR (stopStream s f).2
  | next (s : StreamData) (f : FetchResult StopResult) :
      ReachableNR s → ReachableNR (nextVideo s f)
  | prev (s : StreamData) : ReachableNR s → ReachableNR (previousVideo s)
  | play (s : StreamData) (i : Int) : ReachableNR s → ReachableNR (playVideo s i)
  | toggle (s : StreamData) : ReachableNR s → ReachableNR (togglePlayPause s)

/-! Concrete inputs used by counterexamples and witnesses. -/

/-- A status response reporting a live stream with transmission stats. -/
def liveStatusResp : StatusResult :=
  { success := true
    is_live := true
    transmission := some
      { titulo := "show"
        stats := { viewers := 120, bitrate := 3000, uptime := "00:05:00" } } }

/-- A status response reporting not-live. -/
def notLiveStatusResp : StatusResult :=
  { success := true, is_live := false, transmission := Option.none }

/-- Snapshot after the initial poll observes a live stream: `isLive = true`
but `startTime` was never set. -/
def liveNoStartTime : StreamData :=
  refreshStreamStatus initialStreamData (FetchResult.resp true liveStatusResp)

/-- A successful start environment over a three-video playlist. -/
def okStartEnv : StartEnv :=
  { playlistFetch := FetchResult.resp true { nome := "minha playlist" }
    videosFetch := FetchResult.resp true [10, 11, 12]
    shuffleFn := fun v => v
    startFetch := FetchResult.resp true
      { success := true
        stream_url := some "rtmp://example/live"
        stream_name := some "stream1"
        error := Option.none }
    now := 1700000000 }

/-- Snapshot after a successful `startPlaylistStream` from the initial state. -/
def postStartState : StreamData :=
  (startPlaylistStream initialStreamData 7 {} okStartEnv).2

/-- A rejected stop response (`success = false`). -/
def failStopResp : FetchResult StopResult :=
  FetchResult.resp true { success := false, error := some "wowza busy" }

/-- An accepted stop response. -/
def okStopResp : FetchResult StopResult :=
  FetchResult.resp true { success := true, error := Option.none }

/-- Playback state parked on the last video of a non-looping playlist. -/
def lastIndexNoLoop : CurrentPlaylist :=
  { id := 7
    name := "minha playlist"
    videos := [10, 11, 12]
    currentVideoIndex := 2
    isPlaying := true
    loop := false
    shuffle := false }

/-- Snapshot holding `lastIndexNoLoop` as its playback state. -/
def lastIndexNoLoopState : StreamData :=
  { postStartState with currentPlaylist := some lastIndexNoLoop }

/-- The playback state installed by the successful start of `postStartState`. -/
def startedPlaylist : CurrentPlaylist :=
  { id := 7
    name := "minha playlist"
    videos := [10, 11, 12]
    currentVideoIndex := 0
    isPlaying := true
    loop := true
    shuffle := false }

/-! Claim theorems. -/

/-- Claim C8: when the status poll fails with a transport or parse error,
`refreshStreamStatus` sets `wowzaStatus = error` and changes no other field
of the snapshot (the result is exactly the input record with only
`wowzaStatus` replaced); the embedding is total, so no error propagates to
the caller. -/
theorem refresh_transport_error_frame (s : StreamData) (m : String) :
    refreshStreamStatus s (FetchResult.netErr m) =
      { s with wowzaStatus := WowzaStatus.error } := rfl

/-- Claim C10: a poll response with `success = true` and `is_live = true` but
no `transmission` object takes the not-live branch: `isLive = false`,
`viewers = 0`, `bitrate = 0`, `uptime = "00:00:00"`,
`wowzaStatus = offline`. -/
theorem refresh_live_without_transmission (s : StreamData) (ok : Bool) :
    refreshStreamStatus s (FetchResult.resp ok
        { success := true, is_live := true, transmission := Option.none }) =
      { s with isLive := false, viewers := 0, bitrate := 0, uptime := "00:00:00",
               wowzaStatus := WowzaStatus.offline } := rfl

/-- Claim C6: a poll response reporting `is_live = false` forces
`isLive = false`, zeroes `viewers`, `bitrate` and `uptime` and sets
`wowzaStatus = offline`, whatever the local snapshot held — in particular
for the snapshot an optimistic successful `startPlaylistStream` just
produced (`postStartState`, whose `isLive` is `true`): the remote is
authoritative. -/
theorem refresh_notlive_overrides :
    postStartState.isLive = true ∧
    ∀ (s : StreamData) (ok su : Bool) (tr : Option Transmission),
      refreshStreamStatus s (FetchResult.resp ok
          { success := su, is_live := false, transmission := tr }) =
        { s with isLive := false, viewers := 0, bitrate := 0, uptime := "00:00:00",
                 wowzaStatus := WowzaStatus.offline } := by
  refine ⟨rfl, fun s ok su tr => ?_⟩
  cases su <;> cases tr <;> rfl

/-- Claim C5: `stopStream` on a response with `success = true` resets the
snapshot to the idle baseline (`isLive = false`, zeroed viewers, bitrate and
duration, uptime reset, `streamType = none`, `currentPlaylist = undefined`,
`startTime = undefined`, `wowzaStatus = offline`) and throws nothing; on a
response with `success = false` it throws the stop error carrying the remote
reason and leaves the snapshot unchanged; on a network error it re-throws
and leaves the snapshot unchanged. -/
theorem stopStream_spec (s : StreamData) :
    (∀ (ok : Bool) (err : Option String),
      stopStream s (FetchResult.resp ok { success := true, error := err }) =
        (Option.none,
         { s with isLive := false, streamUrl := "", viewers := 0, uptime := "00:00:00",
                  bitrate := 0, duration := 0, startTime := Option.none,
                  wowzaStatus := WowzaStatus.offline, streamName := "",
                  streamType := StreamType.none, currentPlaylist := Option.none })) ∧
    (∀ (ok : Bool) (err : Option String),
      stopStream s (FetchResult.resp ok { success := false, error := err }) =
        (some (StreamError.stopFailed err), s)) ∧
    (∀ m : String,
      stopStream s (FetchResult.netErr m) = (some (StreamError.netErr m), s)) :=
  ⟨fun _ _ => rfl, fun _ _ => rfl, fun _ => rfl⟩

/-- Claim C4: when every lookup succeeds, the video list is non-empty and the
remote start reports `success = true`, `startPlaylistStream` throws nothing
and applies one atomic update setting `isLive = true`,
`streamType = playlist`, `startTime = now`, `viewers = 0`, the nominal
bitrate 2500, `wowzaStatus = online`, and installing a fresh playback state
with `currentVideoIndex = 0`, `isPlaying = true` and the loop/shuffle flags
from the options (defaulting `loop = true`, `shuffle = false`). -/
theorem startPlaylistStream_success (s : StreamData) (pid : Int) (opts : StartOptions)
    (p : Playlist) (vs : List Video) (shf : List Video → List Video) (ok : Bool)
    (u n e : Option String) (now : Int) (hvs : vs.length ≠ 0) :
    startPlaylistStream s pid opts
      { playlistFetch := FetchResult.resp true p
        videosFetch := FetchResult.resp true vs
        shuffleFn := shf
        startFetch := FetchResult.resp ok
          { success := true, stream_url := u, stream_name := n, error := e }
        now := now } =
      (Option.none,
       { s with
          isLive := true
          streamUrl := u.getD ""
          streamName := n.getD ""
          title := p.nome
          startTime := some now
          viewers := 0
          bitrate := 2500
          wowzaStatus := WowzaStatus.online
          streamType := StreamType.playlist
          currentPlaylist := some
            { id := pid
              name := p.nome
              videos := if opts.shuffle.getD false then shf vs else vs
              currentVideoIndex := 0
              isPlaying := true
              loop := opts.loop.getD true
              shuffle := opts.shuffle.getD false } }) := by
  simp [startPlaylistStream, hvs]

/-- Claim C4 witness: instantiation at the initial state with a concrete
three-video playlist environment. -/
theorem startPlaylistStream_success_witness :
    startPlaylistStream initialStreamData 7 {} okStartEnv =
      (Option.none,
       { initialStreamData with
          isLive := true
          streamUrl := "rtmp://example/live"
          streamName := "stream1"
          title := "minha playlist"
          startTime := some 1700000000
          viewers := 0
          bitrate := 2500
          wowzaStatus := WowzaStatus.online
          streamType := StreamType.playlist
          currentPlaylist := some
            { id := 7
              name := "minha playlist"
              videos := [10, 11, 12]
              currentVideoIndex := 0
              isPlaying := true
              loop := true
              shuffle := false } }) := by
  have h := startPlaylistStream_success initialStreamData 7 {}
    { nome := "minha playlist" } [10, 11, 12] (fun v => v) true
    (some "rtmp://example/live") (some "stream1") Option.none 1700000000 (by decide)
  exact h

/-- Claim C3: `startPlaylistStream` throws the not-found error when the
playlist lookup returns a non-ok response, the empty-playlist error when the
fetched video list is empty, the start error carrying the remote-supplied
reason when the remote start reports `success = false`, and re-throws the
network error when the start request fails in transport; in every such case
the returned snapshot is the unchanged input snapshot. -/
theorem startPlaylistStream_failures (s : StreamData) (pid : Int) (opts : StartOptions) :
    (∀ (b : Playlist) fv shf stf (now : Int),
      startPlaylistStream s pid opts
        { playlistFetch := FetchResult.resp false b, videosFetch := fv,
          shuffleFn := shf, startFetch := stf, now := now } =
        (some StreamError.playlistNotFound, s)) ∧
    (∀ (p : Playlist) shf stf (now : Int) (ok : Bool),
      startPlaylistStream s pid opts
        { playlistFetch := FetchResult.resp true p,
          videosFetch := FetchResult.resp ok [],
          shuffleFn := shf, startFetch := stf, now := now } =
        (some (if ok then StreamError.emptyPlaylist else StreamError.videosLoadError), s)) ∧
    (∀ (p : Playlist) (vs : List Video) shf (ok : Bool) (u n e : Option String) (now : Int),
      vs.length ≠ 0 →
      startPlaylistStream s pid opts
        { playlistFetch := FetchResult.resp true p,
          videosFetch := FetchResult.resp true vs,
          shuffleFn := shf,
          startFetch := FetchResult.resp ok
            { success := false, stream_url := u, stream_name := n, error := e },
          now := now } =
        (some (StreamError.startFailed e), s)) ∧
    (∀ (p : Playlist) (vs : List Video) shf (m : String) (now : Int),
      vs.length ≠ 0 →
      startPlaylistStream s pid opts
        { playlistFetch := FetchResult.resp true p,
          videosFetch := FetchResult.resp true vs,
          shuffleFn := shf, startFetch := FetchResult.netErr m, now := now } =
        (some (StreamError.netErr m), s)) := by
  refine ⟨fun b fv shf stf now => rfl, fun p shf stf now ok => ?_, ?_, ?_⟩
  · cases ok <;> rfl
  · intro p vs shf ok u n e now hvs
    simp [startPlaylistStream, hvs]
  · intro p vs shf m now hvs
    simp [startPlaylistStream, hvs]

/-- Claim C3 witness: the not-found, empty-playlist, remote-rejection and
network-error cases instantiated at the initial state. -/
theorem startPlaylistStream_failures_witness :
    (startPlaylistStream initialStreamData 7 {}
      { playlistFetch := FetchResult.resp false { nome := "x" },
        videosFetch := FetchResult.resp true [10],
        shuffleFn := fun v => v,
        startFetch := FetchResult.netErr "down", now := 0 } =
      (some StreamError.playlistNotFound, initialStreamData)) ∧
    (startPlaylistStream initialStreamData 7 {}
      { playlistFetch := FetchResult.resp true { nome := "x" },
        videosFetch := FetchResult.resp true [],
        shuffleFn := fun v => v,
        startFetch := FetchResult.netErr "down", now := 0 } =
      (some StreamError.emptyPlaylist, initialStreamData)) ∧
    (startPlaylistStream initialStreamData 7 {}
      { playlistFetch := FetchResult.resp true { nome := "x" },
        videosFetch := FetchResult.resp true [10],
        shuffleFn := fun v => v,
        startFetch := FetchResult.resp true
          { success := false, stream_url := Option.none, stream_name := Option.none,
            error := some "sem espaco" },
        now := 0 } =
      (some (StreamError.startFailed (some "sem espaco")), initialStreamData)) ∧
    (startPlaylistStream initialStreamData 7 {}
      { playlistFetch := FetchResult.resp true { nome := "x" },
        videosFetch := FetchResult.resp true [10],
        shuffleFn := fun v => v,
        startFetch := FetchResult.netErr "down", now := 0 } =
      (some (StreamError.netErr "down"), initialStreamData)) := by
  have h := startPlaylistStream_failures initialStreamData 7 {}
  exact ⟨h.1 { nome := "x" } (FetchResult.resp true [10]) (fun v => v)
          (FetchResult.netErr "down") 0,
         h.2.1 { nome := "x" } (fun v => v) (FetchResult.netErr "down") 0 true,
         h.2.2.1 { nome := "x" } [10] (fun v => v) true Option.none Option.none
          (some "sem espaco") 0 (by decide),
         h.2.2.2 { nome := "x" } [10] (fun v => v) "down" 0 (by decide)⟩

/-- Helper: updating the status of every platform matching `pid` makes the
first match found afterwards carry the new status (provided some platform
matches). -/
theorem find?_status_update (l : List StreamPlatform) (pid : String) (st : PlatformStatus)
    (h : (l.find? fun platform => platform.id == pid).isSome = true) :
    ((l.map fun platform =>
        if platform.id == pid then { platform with status := st } else platform).find?
      fun platform => platform.id == pid).map StreamPlatform.status = some st := by
  induction l with
  | nil => simp [List.find?] at h
  | cons a l ih =>
    rw [List.map_cons]
    by_cases hc : (a.id == pid) = true
    · rw [List.find?_cons_of_pos _ (by simp [hc])]
      simp [hc]
    · rw [List.find?_cons_of_neg _ (by simp [hc])]
      refine ih ?_
      rwa [List.find?_cons_of_neg _ (by simp [hc])] at h

/-- Helper: `statusOf` after `updatePlatformStatus` at the same id. -/
theorem statusOf_update (s : StreamData) (pid : String) (st : PlatformStatus)
    (h : (statusOf s pid).isSome = true) :
    statusOf (updatePlatformStatus s pid st) pid = some st := by
  have h' : (s.platforms.find? fun platform => platform.id == pid).isSome = true := by
    simpa [statusOf] using h
  simpa [statusOf, updatePlatformStatus] using find?_status_update s.platforms pid st h'

/-- Claim C9: for a platform id present in the registry, `connectToPlatform`
produces the status sequence `connecting` then `connected` on success and
`connecting` then `error` on failure (never skipping or reverting), and
`disconnectFromPlatform` lands on `disconnected` on success and on `error`
on failure. -/
theorem platform_status_transitions (s : StreamData) (pid : String)
    (h : (statusOf s pid).isSome = true) :
    ((connectToPlatform s pid (Except.ok ())).map fun t => statusOf t pid) =
        [some PlatformStatus.connecting, some PlatformStatus.connected] ∧
    (∀ e : String,
      ((connectToPlatform s pid (Except.error e)).map fun t => statusOf t pid) =
        [some PlatformStatus.connecting, some PlatformStatus.error]) ∧
    statusOf (disconnectFromPlatform s pid (Except.ok ())) pid =
        some PlatformStatus.disconnected ∧
    (∀ e : String,
      statusOf (disconnectFromPlatform s pid (Except.error e)) pid =
        some PlatformStatus.error) := by
  have h1 : statusOf (updatePlatformStatus s pid PlatformStatus.connecting) pid =
      some PlatformStatus.connecting := statusOf_update s pid _ h
  have h1s : (statusOf (updatePlatformStatus s pid PlatformStatus.connecting) pid).isSome =
      true := by rw [h1]; rfl
  refine ⟨?_, fun e => ?_, statusOf_update s pid _ h, fun e => statusOf_update s pid _ h⟩
  · simp only [connectToPlatform, List.map_cons, List.map_nil]
    rw [h1, statusOf_update _ pid _ h1s]
  · simp only [connectToPlatform, List.map_cons, List.map_nil]
    rw [h1, statusOf_update _ pid _ h1s]

/-- Claim C9 witness: the `youtube` platform of the initial registry. -/
theorem platform_status_transitions_witness :
    ((connectToPlatform initialStreamData "youtube" (Except.ok ())).map
        fun t => statusOf t "youtube") =
      [some PlatformStatus.connecting, some PlatformStatus.connected] ∧
    statusOf (disconnectFromPlatform initialStreamData "youtube" (Except.ok ())) "youtube" =
      some PlatformStatus.disconnected := by
  have h := platform_status_transitions initialStreamData "youtube" (by decide)
  exact ⟨h.1, h.2.2.1⟩

/-- Claim C7: from any playback state over a non-empty video sequence with a
valid `currentVideoIndex`, each of `nextVideo` (with any outcome of the stop
round trip it may trigger), `previousVideo` and `playVideo` leaves
`currentVideoIndex` a valid index whenever a playback state remains; in
particular `previousVideo` from index 0 wraps to `length - 1`, and
`playVideo` with an out-of-range index leaves the snapshot unchanged. -/
theorem playback_navigation_valid (s : StreamData) (cp : CurrentPlaylist)
    (hcp : s.currentPlaylist = some cp)
    (h0 : 0 ≤ cp.currentVideoIndex)
    (hlt : cp.currentVideoIndex < (cp.videos.length : Int)) :
    (∀ f, validPlayback (nextVideo s f)) ∧
    validPlayback (previousVideo s) ∧
    (∀ i, validPlayback (playVideo s i)) ∧
    (cp.currentVideoIndex = 0 →
      (previousVideo s).currentPlaylist =
        some { cp with currentVideoIndex := (cp.videos.length : Int) - 1 }) ∧
    (∀ i, ¬(0 ≤ i ∧ i < (cp.videos.length : Int)) → playVideo s i = s) := by
  have hlen : 0 < (cp.videos.length : Int) := lt_of_le_of_lt h0 hlt
  refine ⟨?_, ?_, ?_, ?_, ?_⟩
  · intro f cp' h'
    simp only [nextVideo, hcp] at h'
    split at h'
    · split at h'
      · simp only [Option.some.injEq] at h'
        subst h'
        exact ⟨le_refl 0, hlen⟩
      · rcases f with m | ⟨ok, r⟩
        · rw [show (stopStream s (FetchResult.netErr m)).2 = s from rfl, hcp] at h'
          cases h'
          exact ⟨h0, hlt⟩
        · obtain ⟨su, err⟩ := r
          cases su
          · rw [show (stopStream s (FetchResult.resp ok
                { success := false, error := err })).2 = s from rfl, hcp] at h'
            cases h'
            exact ⟨h0, hlt⟩
          · simp [stopStream] at h'
    · simp only [Option.some.injEq] at h'
      subst h'
      dsimp only
      omega
  · intro cp' h'
    simp only [previousVideo, hcp] at h'
    split at h'
    · simp only [Option.some.injEq] at h'
      subst h'
      dsimp only
      omega
    · simp only [Option.some.injEq] at h'
      subst h'
      dsimp only
      omega
  · intro i cp' h'
    simp only [playVideo, hcp] at h'
    split at h'
    · simp only [Option.some.injEq] at h'
      subst h'
      dsimp only
      omega
    · rw [hcp] at h'
      cases h'
      exact ⟨h0, hlt⟩
  · intro hz
    simp only [previousVideo, hcp]
    rw [if_pos (by omega)]
  · intro i hi
    simp only [playVideo, hcp]
    rw [if_neg hi]

/-- Claim C7 witness: the playback state installed by a successful start
(index `0` over three videos). -/
theorem playback_navigation_valid_witness :
    validPlayback (previousVideo postStartState) ∧
    validPlayback (nextVideo postStartState okStopResp) := by
  have h := playback_navigation_valid postStartState startedPlaylist rfl
    (by decide) (by decide)
  exact ⟨h.2.1, h.1 okStopResp⟩

/-- Claim C2 (amended): `nextVideo` at the last index with `loop = false`
triggers `stopStream`; when the triggered remote stop succeeds, the playback
state is cleared and the session transitions to idle. -/
theorem advance_last_noloop_stops (s : StreamData) (cp : CurrentPlaylist)
    (hcp : s.currentPlaylist = some cp)
    (hlast : cp.currentVideoIndex = (cp.videos.length : Int) - 1)
    (hloop : cp.loop = false) (ok : Bool) (err : Option String) :
    (nextVideo s (FetchResult.resp ok { success := true, error := err })).currentPlaylist =
        Option.none ∧
    (nextVideo s (FetchResult.resp ok { success := true, error := err })).isLive = false := by
  have hge : cp.currentVideoIndex + 1 ≥ (cp.videos.length : Int) := by omega
  have hnl : ¬cp.loop = true := by rw [hloop]; exact Bool.false_ne_true
  refine ⟨?_, ?_⟩ <;>
    · simp only [nextVideo, hcp]
      rw [if_pos hge, if_neg hnl]
      rfl

/-- Claim C2 witness: concrete three-video playlist at its last index with
`loop = false`; the stop round trip succeeds. -/
theorem advance_last_noloop_stops_witness :
    (nextVideo lastIndexNoLoopState okStopResp).currentPlaylist = Option.none ∧
    (nextVideo lastIndexNoLoopState okStopResp).isLive = false := by
  have h := advance_last_noloop_stops lastIndexNoLoopState lastIndexNoLoop rfl
    (by decide) rfl true Option.none
  exact h

/-- Claim C2 counterexample: at the last index of a non-looping playlist,
when the triggered remote stop fails (`success = false`), the playback state
is not cleared and the session stays live — refuting the claim that
`advance()` there always results in cleared playback and an idle session. -/
theorem advance_last_noloop_counterexample :
    lastIndexNoLoopState.currentPlaylist = some lastIndexNoLoop ∧
    lastIndexNoLoop.loop = false ∧
    lastIndexNoLoop.currentVideoIndex = (lastIndexNoLoop.videos.length : Int) - 1 ∧
    ¬((nextVideo lastIndexNoLoopState failStopResp).currentPlaylist = Option.none ∧
      (nextVideo lastIndexNoLoopState failStopResp).isLive = false) := by
  refine ⟨rfl, rfl, by decide, ?_⟩
  rintro ⟨hnone, -⟩
  exact absurd hnone (by decide)

/-- Helper: a `startPlaylistStream` call either leaves the snapshot unchanged
(some throw site) or produces the success snapshot, which has a playback
state, `streamType = playlist`, a `startTime` and `isLive = true`. -/
theorem start_shape (s : StreamData) (pid : Int) (opts : StartOptions) (env : StartEnv) :
    (startPlaylistStream s pid opts env).2 = s ∨
    ((startPlaylistStream s pid opts env).2.currentPlaylist.isSome = true ∧
     (startPlaylistStream s pid opts env).2.streamType = StreamType.playlist ∧
     (startPlaylistStream s pid opts env).2.startTime.isSome = true ∧
     (startPlaylistStream s pid opts env).2.isLive = true) := by
  obtain ⟨pf, vf, shf, stf, now⟩ := env
  rcases pf with m | ⟨pok, p⟩
  · exact Or.inl rfl
  · cases pok
    · exact Or.inl rfl
    · rcases vf with m | ⟨vok, vs⟩
      · exact Or.inl rfl
      · cases vok
        · exact Or.inl rfl
        · by_cases he : vs.length = 0
          · left
            simp [startPlaylistStream, he]
          · rcases stf with m | ⟨sok, r⟩
            · left
              simp [startPlaylistStream, he]
            · obtain ⟨su, u, n, e⟩ := r
              cases su
              · left
                simp [startPlaylistStream, he]
              · right
                simp [startPlaylistStream, he]

/-- Helper: a `stopStream` call either leaves the snapshot unchanged (throw)
or produces the idle snapshot (no playback, `streamType = none`, no
`startTime`, not live). -/
theorem stop_shape (s : StreamData) (f : FetchResult StopResult) :
    (stopStream s f).2 = s ∨
    ((stopStream s f).2.currentPlaylist = Option.none ∧
     (stopStream s f).2.streamType = StreamType.none ∧
     (stopStream s f).2.startTime = Option.none ∧
     (stopStream s f).2.isLive = false) := by
  rcases f with m | ⟨ok, r⟩
  · exact Or.inl rfl
  · obtain ⟨su, e⟩ := r
    cases su
    · exact Or.inl rfl
    · exact Or.inr ⟨rfl, rfl, rfl, rfl⟩

/-- Helper: `refreshStreamStatus` never touches `currentPlaylist` or
`streamType`. -/
theorem refresh_shape (s : StreamData) (f : FetchResult StatusResult) :
    (refreshStreamStatus s f).currentPlaylist = s.currentPlaylist ∧
    (refreshStreamStatus s f).streamType = s.streamType := by
  rcases f with m | ⟨ok, r⟩
  · exact ⟨rfl, rfl⟩
  · obtain ⟨su, il, tr⟩ := r
    cases su <;> cases il <;> cases tr <;> exact ⟨rfl, rfl⟩

/-- Helper: `nextVideo` leaves the snapshot unchanged, delegates to
`stopStream`, or keeps a (present) playback state while touching nothing
else. -/
theorem next_shape (s : StreamData) (f : FetchResult StopResult) :
    nextVideo s f = s ∨ nextVideo s f = (stopStream s f).2 ∨
    (s.currentPlaylist.isSome = true ∧
     ∃ cp', nextVideo s f = { s with currentPlaylist := some cp' }) := by
  cases hcp : s.currentPlaylist with
  | none => left; simp [nextVideo, hcp]
  | some cp =>
    by_cases hge : cp.currentVideoIndex + 1 ≥ (cp.videos.length : Int)
    · by_cases hl : cp.loop = true
      · right; right
        refine ⟨rfl, ⟨{ cp with currentVideoIndex := 0 }, ?_⟩⟩
        simp only [nextVideo, hcp]
        rw [if_pos hge, if_pos hl]
      · right; left
        simp only [nextVideo, hcp]
        rw [if_pos hge, if_neg hl]
    · right; right
      refine ⟨rfl,
        ⟨{ cp with currentVideoIndex := cp.currentVideoIndex + 1 }, ?_⟩⟩
      simp only [nextVideo, hcp]
      rw [if_neg hge]

/-- Helper: `previousVideo` leaves the snapshot unchanged or keeps a
(present) playback state while touching nothing else. -/
theorem prev_shape (s : StreamData) :
    previousVideo s = s ∨
    (s.currentPlaylist.isSome = true ∧
     ∃ cp', previousVideo s = { s with currentPlaylist := some cp' }) := by
  cases hcp : s.currentPlaylist with
  | none => left; simp [previousVideo, hcp]
  | some cp =>
    right
    refine ⟨rfl,
      ⟨{ cp with currentVideoIndex :=
          if cp.currentVideoIndex - 1 < 0 then (cp.videos.length : Int) - 1
          else cp.currentVideoIndex - 1 }, ?_⟩⟩
    simp only [previousVideo, hcp]

/-- Helper: `playVideo` leaves the snapshot unchanged or keeps a (present)
playback state while touching nothing else. -/
theorem play_shape (s : StreamData) (i : Int) :
    playVideo s i = s ∨
    (s.currentPlaylist.isSome = true ∧
     ∃ cp', playVideo s i = { s with currentPlaylist := some cp' }) := by
  cases hcp : s.currentPlaylist with
  | none => left; simp [playVideo, hcp]
  | some cp =>
    by_cases hr : 0 ≤ i ∧ i < (cp.videos.length : Int)
    · right
      refine ⟨rfl, ⟨{ cp with currentVideoIndex := i }, ?_⟩⟩
      simp only [playVideo, hcp]
      rw [if_pos hr]
    · left
      simp only [playVideo, hcp]
      rw [if_neg hr]

/-- Helper: `togglePlayPause` leaves the snapshot unchanged or keeps a
(present) playback state while touching nothing else. -/
theorem toggle_shape (s : StreamData) :
    togglePlayPause s = s ∨
    (s.currentPlaylist.isSome = true ∧
     ∃ cp', togglePlayPause s = { s with currentPlaylist := some cp' }) := by
  cases hcp : s.currentPlaylist with
  | none => left; simp [togglePlayPause, hcp]
  | some cp =>
    right
    refine ⟨rfl, ⟨{ cp with isPlaying := !cp.isPlaying }, ?_⟩⟩
    simp only [togglePlayPause, hcp]

/-- Helper: any snapshot that is either unchanged or of the stop / start /
navigation shapes preserves the playlist half of the invariant. -/
theorem playbackInv_start_pres (s : StreamData) (pid : Int) (opts : StartOptions)
    (env : StartEnv) (h : playbackInv s) :
    playbackInv (startPlaylistStream s pid opts env).2 := by
  rcases start_shape s pid opts env with he | ⟨h1, h2, _, _⟩
  · rw [he]; exact h
  · exact ⟨fun _ => h2, fun _ => h1⟩

/-- Helper: `stopStream` preserves the playlist half of the invariant. -/
theorem playbackInv_stop_pres (s : StreamData) (f : FetchResult StopResult)
    (h : playbackInv s) : playbackInv (stopStream s f).2 := by
  rcases stop_shape s f with he | ⟨h1, h2, _, _⟩
  · rw [he]; exact h
  · unfold playbackInv
    rw [h1, h2]
    simp

/-- Helper: `refreshStreamStatus` preserves the playlist half of the
invariant. -/
theorem playbackInv_refresh_pres (s : StreamData) (f : FetchResult StatusResult)
    (h : playbackInv s) : playbackInv (refreshStreamStatus s f) := by
  obtain ⟨h1, h2⟩ := refresh_shape s f
  unfold playbackInv
  rw [h1, h2]
  exact h

/-- Helper: a navigation-shaped result (unchanged, or a present playback
state with other fields kept) preserves the playlist half of the
invariant. -/
theorem playbackInv_nav_shape (s t : StreamData)
    (hsh : t = s ∨ (s.currentPlaylist.isSome = true ∧
      ∃ cp', t = { s with currentPlaylist := some cp' }))
    (h : playbackInv s) : playbackInv t := by
  rcases hsh with he | ⟨h1, cp', he⟩
  · rw [he]; exact h
  · rw [he]
    exact ⟨fun _ => h.mp h1, fun _ => rfl⟩

/-- Helper: `nextVideo` preserves the playlist half of the invariant. -/
theorem playbackInv_next_pres (s : StreamData) (f : FetchResult StopResult)
    (h : playbackInv s) : playbackInv (nextVideo s f) := by
  rcases next_shape s f with he | he | hsh
  · rw [he]; exact h
  · rw [he]; exact playbackInv_stop_pres s f h
  · exact playbackInv_nav_shape s _ (Or.inr hsh) h

/-- Helper: `startPlaylistStream` preserves the start-time half of the
invariant. -/
theorem startTimeInv_start_pres (s : StreamData) (pid : Int) (opts : StartOptions)
    (env : StartEnv) (h : startTimeInv s) :
    startTimeInv (startPlaylistStream s pid opts env).2 := by
  rcases start_shape s pid opts env with he | ⟨_, _, h3, h4⟩
  · rw [he]; exact h
  · exact ⟨fun _ => h4, fun _ => h3⟩

/-- Helper: `stopStream` preserves the start-time half of the invariant. -/
theorem startTimeInv_stop_pres (s : StreamData) (f : FetchResult StopResult)
    (h : startTimeInv s) : startTimeInv (stopStream s f).2 := by
  rcases stop_shape s f with he | ⟨_, _, h3, h4⟩
  · rw [he]; exact h
  · unfold startTimeInv
    rw [h3, h4]
    simp

/-- Helper: a navigation-shaped result preserves the start-time half of the
invariant (those fields are untouched). -/
theorem startTimeInv_nav_shape (s t : StreamData)
    (hsh : t = s ∨ (s.currentPlaylist.isSome = true ∧
      ∃ cp', t = { s with currentPlaylist := some cp' }))
    (h : startTimeInv s) : startTimeInv t := by
  rcases hsh with he | ⟨_, cp', he⟩
  · rw [he]; exact h
  · rw [he]; exact h

/-- Helper: `nextVideo` preserves the start-time half of the invariant. -/
theorem startTimeInv_next_pres (s : StreamData) (f : FetchResult StopResult)
    (h : startTimeInv s) : startTimeInv (nextVideo s f) := by
  rcases next_shape s f with he | he | hsh
  · rw [he]; exact h
  · rw [he]; exact startTimeInv_stop_pres s f h
  · exact startTimeInv_nav_shape s _ (Or.inr hsh) h

/-- Claim C1 (amended): in every snapshot reachable by the public operations,
the playback state is present if and only if `streamType = playlist`; the
second half of the invariant — `startTime` present if and only if `isLive` —
holds in every snapshot reachable without `refreshStreamStatus`, but
`refreshStreamStatus` can break it because it overwrites `isLive` from the
remote answer without touching `startTime`. -/
theorem stream_session_invariants :
    (∀ s, Reachable s → playbackInv s) ∧
    (∀ s, ReachableNR s → playbackInv s ∧ startTimeInv s) := by
  have hinit : playbackInv initialStreamData := by
    unfold playbackInv initialStreamData
    simp
  have hinit2 : startTimeInv initialStreamData := by
    unfold startTimeInv initialStreamData
    simp
  constructor
  · intro s hr
    induction hr with
    | init => exact hinit
    | start s pid opts env _ ih => exact playbackInv_start_pres s pid opts env ih
    | stop s f _ ih => exact playbackInv_stop_pres s f ih
    | refresh s f _ ih => exact playbackInv_refresh_pres s f ih
    | next s f _ ih => exact playbackInv_next_pres s f ih
    | prev s _ ih => exact playbackInv_nav_shape s _ (prev_shape s) ih
    | play s i _ ih => exact playbackInv_nav_shape s _ (play_shape s i) ih
    | toggle s _ ih => exact playbackInv_nav_shape s _ (toggle_shape s) ih
  · intro s hr
    induction hr with
    | init => exact ⟨hinit, hinit2⟩
    | start s pid opts env _ ih =>
        exact ⟨playbackInv_start_pres s pid opts env ih.1,
               startTimeInv_start_pres s pid opts env ih.2⟩
    | stop s f _ ih =>
        exact ⟨playbackInv_stop_pres s f ih.1, startTimeInv_stop_pres s f ih.2⟩
    | next s f _ ih =>
        exact ⟨playbackInv_next_pres s f ih.1, startTimeInv_next_pres s f ih.2⟩
    | prev s _ ih =>
        exact ⟨playbackInv_nav_shape s _ (prev_shape s) ih.1,
               startTimeInv_nav_shape s _ (prev_shape s) ih.2⟩
    | play s i _ ih =>
        exact ⟨playbackInv_nav_shape s _ (play_shape s i) ih.1,
               startTimeInv_nav_shape s _ (play_shape s i) ih.2⟩
    | toggle s _ ih =>
        exact ⟨playbackInv_nav_shape s _ (toggle_shape s) ih.1,
               startTimeInv_nav_shape s _ (toggle_shape s) ih.2⟩

/-- Claim C1 witness: the initial snapshot satisfies both invariant halves. -/
theorem stream_session_invariants_witness :
    playbackInv initialStreamData ∧ startTimeInv initialStreamData :=
  stream_session_invariants.2 initialStreamData ReachableNR.init

/-- Claim C1 counterexample: the snapshot reached by one `refreshStreamStatus`
from the initial state, when the poll reports a live transmission, has
`isLive = true` but no `startTime` — refuting the claim that both invariant
halves hold in every reachable snapshot. -/
theorem snapshot_invariant_counterexample :
    Reachable liveNoStartTime ∧
    liveNoStartTime.isLive = true ∧
    liveNoStartTime.startTime = Option.none ∧
    ¬(playbackInv liveNoStartTime ∧ startTimeInv liveNoStartTime) := by
  refine ⟨Reachable.refresh initialStreamData (FetchResult.resp true liveStatusResp)
    Reachable.init, rfl, rfl, ?_⟩
  rintro ⟨-, hs⟩
  have h1 : liveNoStartTime.startTime.isSome = true := hs.mpr rfl
  exact absurd h1 (by decide)

end StreamContext
